import Mathlib

/-!
Verification development for the dependency-resolution-and-injection engine of
the two project-scaffolding toolkits (Go/Gin backend generator and Vue 3
frontend generator).

The Python sources are shallowly embedded as Lean definitions.  All network
and subprocess effects are made explicit: every function that performs a
registry query or runs a child process takes the outcome of that external
interaction as an argument (an oracle), and the pure computation performed on
that outcome is translated faithfully from the source.

Version objects of the Python `packaging` library are modelled for
release-only versions (dot-separated numeric components): `parseVersion`
models `packaging.version.parse` restricted to such strings, comparison
models the release-tuple comparison of `packaging` (trailing zero components
stripped, then lexicographic tuple order), and `renderVersion` models
`str(Version)` on release-only versions.
-/

namespace DepEngine

/-- Boolean test that the first character list is an initial segment of the
second. -/
def charsLeadWith : List Char → List Char → Bool
  | [], _ => true
  | _ :: _, [] => false
  | a :: as, b :: bs => a = b && charsLeadWith as bs

/-- Boolean substring search on character lists. -/
def charsContain (pat : List Char) : List Char → Bool
  | [] => pat.isEmpty
  | c :: rest => charsLeadWith pat (c :: rest) || charsContain pat rest

/-- Python `re.search` for a literal pattern: `s` contains `pat` as a
substring. -/
def containsSub (s pat : String) : Bool :=
  charsContain pat.data s.data

/-- Python truthiness of an optional string: `None` and the empty string are
falsy. -/
def pyTruthy : Option String → Bool
  | none => false
  | some s => s ≠ ""

/-- Python `x or default` for an optional string `x`: yields `default` when
`x` is `None` or empty. -/
def pyOr (x : Option String) (dflt : String) : String :=
  match x with
  | none => dflt
  | some s => if s = "" then dflt else s

/-- Splits a character list on a separator character (Python `str.split` on
a one-character separator). -/
def splitOnChar (sep : Char) : List Char → List (List Char)
  | [] => [[]]
  | c :: cs =>
    if c = sep then [] :: splitOnChar sep cs
    else
      match splitOnChar sep cs with
      | [] => [[c]]
      | p :: ps => (c :: p) :: ps

/-- Parses a nonempty all-digit character list as a natural number. -/
def digitsToNat? (l : List Char) : Option Nat :=
  if l.isEmpty then none
  else if l.all (fun c => 48 ≤ c.toNat && c.toNat ≤ 57) then
    some (l.foldl (fun acc c => acc * 10 + (c.toNat - 48)) 0)
  else none

/-- Models `packaging.version.parse` restricted to release-only versions:
a dot-separated list of numeric components. -/
def parseVersion (s : String) : Option (List Nat) :=
  (splitOnChar '.' s.data).mapM digitsToNat?

/-- Models `str` on a release-only `packaging` version: components joined by
dots. -/
def renderVersion (v : List Nat) : String :=
  String.intercalate "." (v.map toString)

/-- The comparison key `packaging` uses for release tuples: trailing zero
components are dropped before comparison. -/
def releaseKey (v : List Nat) : List Nat :=
  (v.reverse.dropWhile (fun x => x = 0)).reverse

/-- Models `Version.__lt__` of `packaging` for release-only versions:
lexicographic tuple order on the trailing-zero-stripped release tuples. -/
def versionLt (a b : List Nat) : Bool :=
  decide (releaseKey a < releaseKey b)

/-- Python `max(xs)` for a nonempty list under a strict-order test `lt`
(keeps the earliest maximal element); `none` on the empty list. -/
def pyMax (lt : α → α → Bool) : List α → Option α
  | [] => none
  | x :: xs => some (xs.foldl (fun acc v => if lt acc v then v else acc) x)

/-- The pre-release markers filtered by `query_go_module_version`
(re.search of a hyphen followed by one of the words). -/
def goPreMarkers : List String := ["-alpha", "-beta", "-rc", "-pre"]

/-- True when the string matches one of the given pre-release markers. -/
def hasAnyMarker (markers : List String) (s : String) : Bool :=
  markers.any (fun m => containsSub s m)

/-- Loop of `query_go_module_version` that parses every kept version string;
the first parse failure raises, aborting the whole computation (the
surrounding `try` then returns `None`). -/
def parseAllVersions : List String → Option (List (List Nat))
  | [] => some []
  | v :: vs =>
    match parseVersion v, parseAllVersions vs with
    | some k, some ks => some (k :: ks)
    | _, _ => none

/-- Embeds `query_go_module_version` (go-gin `query_versions.py`).  The
argument is the outcome of the Go proxy request: `none` when the request
failed, otherwise the newline-split version list.  Keeps nonempty strings
without a `-alpha`/`-beta`/`-rc`/`-pre` marker, parses them, and returns the
rendered maximum, or `none` when nothing remains or a kept string fails to
parse. -/
def query_go_module_version (proxyList : Option (List String)) : Option String :=
  match proxyList with
  | none => none
  | some versions =>
    let kept := versions.filter (fun v => (v ≠ "" : Bool) && !hasAnyMarker goPreMarkers v)
    match parseAllVersions kept with
    | none => none
    | some parsed =>
      match pyMax versionLt parsed with
      | some m => some (renderVersion m)
      | none => none

/-- Leading-v strip of `query_github_api_latest_release`: the tag is
returned unchanged unless its first character is `v`, which is dropped. -/
def stripLeadingV (tag : String) : String :=
  match tag.data with
  | c :: rest => if c = 'v' then String.mk rest else tag
  | [] => tag

/-- Embeds `query_github_api_latest_release` (go-gin `query_versions.py`).
The argument is the `tag_name` field of a successful GitHub response (`none`
when the request failed or raised; a response without the field yields `""`).
The tag is returned with a leading `v` stripped; no filtering is applied. -/
def query_github_api_latest_release (apiTag : Option String) : Option String :=
  match apiTag with
  | none => none
  | some tag => some (stripLeadingV tag)

/-- Network oracle for the Go toolkit: outcomes of the GitHub latest-release
endpoint (by owner and repository) and of the Go proxy version-list endpoint
(by module path). -/
structure Network where
  github : String → String → Option String
  goproxy : String → Option (List String)

/-- Result record of `get_gin_framework_info`. -/
structure GinInfo where
  module_path : String
  import_path : String
  version : String
  github_repo : String

/-- Embeds `get_gin_framework_info`: GitHub lookup first, Go proxy as
fallback when the first result is falsy, hardcoded `1.9.1` when both fail. -/
def get_gin_framework_info (net : Network) : GinInfo :=
  let lv := query_github_api_latest_release (net.github "gin-gonic" "gin")
  let lv := if pyTruthy lv then lv
            else query_go_module_version (net.goproxy "github.com/gin-gonic/gin")
  { module_path := "github.com/gin-gonic/gin"
    import_path := "github.com/gin-gonic/gin"
    version := pyOr lv "1.9.1"
    github_repo := "gin-gonic/gin" }

/-- Scenario of spec §8: unreachable primary, secondary returns the list
`["2.1.0", "2.2.0-beta", "2.0.9"]`. -/
def scenarioNet : Network :=
  { github := fun _ _ => none
    goproxy := fun _ => some ["2.1.0", "2.2.0-beta", "2.0.9"] }

/-- One entry of the `dependencies` dict literal in
`get_common_dependency_versions` (before version attachment). -/
structure CommonDepBase where
  module_path : String
  import_path : String
  github_repo : Option String := none

/-- An entry of `get_common_dependency_versions` after the version-query
loop has attached a `version` value. -/
structure CommonDepInfo where
  module_path : String
  import_path : String
  github_repo : Option String
  version : String

/-- The static `dependencies` dict literal of
`get_common_dependency_versions`, keyed by short catalog name, in insertion
order. -/
def commonDependencyTable : List (String × CommonDepBase) :=
  [ ("gorm",
     { module_path := "gorm.io/gorm", import_path := "gorm.io/gorm",
       github_repo := some "go-gorm/gorm" }),
    ("gorm-driver-postgres",
     { module_path := "gorm.io/driver/postgres", import_path := "gorm.io/driver/postgres" }),
    ("gorm-driver-mysql",
     { module_path := "gorm.io/driver/mysql", import_path := "gorm.io/driver/mysql" }),
    ("gorm-driver-sqlite",
     { module_path := "gorm.io/driver/sqlite", import_path := "gorm.io/driver/sqlite" }),
    ("viper",
     { module_path := "github.com/spf13/viper", import_path := "github.com/spf13/viper",
       github_repo := some "spf13/viper" }),
    ("logrus",
     { module_path := "github.com/sirupsen/logrus", import_path := "github.com/sirupsen/logrus",
       github_repo := some "sirupsen/logrus" }),
    ("zap",
     { module_path := "go.uber.org/zap", import_path := "go.uber.org/zap",
       github_repo := some "uber-go/zap" }),
    ("jwt",
     { module_path := "github.com/golang-jwt/jwt", import_path := "github.com/golang-jwt/jwt/v5",
       github_repo := some "golang-jwt/jwt" }),
    ("validator",
     { module_path := "github.com/go-playground/validator",
       import_path := "github.com/go-playground/validator/v10",
       github_repo := some "go-playground/validator" }),
    ("swaggo",
     { module_path := "github.com/swaggo/swag", import_path := "github.com/swaggo/swag",
       github_repo := some "swaggo/swag" }),
    ("gin-cors",
     { module_path := "github.com/gin-contrib/cors", import_path := "github.com/gin-contrib/cors",
       github_repo := some "gin-contrib/cors" }),
    ("testify",
     { module_path := "github.com/stretchr/testify", import_path := "github.com/stretchr/testify",
       github_repo := some "stretchr/testify" }) ]

/-- Version-query loop body of `get_common_dependency_versions`: GitHub
lookup when the entry names a GitHub repository, Go proxy lookup otherwise,
`"latest"` when the consulted source yields nothing usable. -/
def resolveCommonDep (net : Network) (base : CommonDepBase) : CommonDepInfo :=
  let latest :=
    match base.github_repo with
    | some repo =>
      let ps := (splitOnChar '/' repo.data).map String.mk
      query_github_api_latest_release (net.github (ps.getD 0 "") (ps.getD 1 ""))
    | none => query_go_module_version (net.goproxy base.module_path)
  { module_path := base.module_path
    import_path := base.import_path
    github_repo := base.github_repo
    version := pyOr latest "latest" }

/-- Embeds `get_common_dependency_versions` (go-gin `query_versions.py`):
the static table with a per-entry version attached independently. -/
def get_common_dependency_versions (net : Network) : List (String × CommonDepInfo) :=
  commonDependencyTable.map (fun e => (e.1, resolveCommonDep net e.2))

/-- One item of the `golang.org/dl/?mode=json` response used by
`get_go_version_info`. -/
structure GoDlItem where
  version : String
  stable : Bool

/-- Embeds `get_go_version_info` (go-gin `query_versions.py`); the argument
is the parsed JSON response (`none` when the request failed or raised).
Returns the version field of the resulting info dict. -/
def get_go_version_info (dl : Option (List GoDlItem)) : String :=
  match dl with
  | none => "1.21.5"
  | some data =>
    if !data.isEmpty then
      match data.filter (fun item => item.stable) with
      | [] => "1.21.5"
      | latest :: _ =>
        match latest.version.data with
        | a :: b :: rest => if a = 'g' && b = 'o' then String.mk rest else latest.version
        | _ => latest.version
    else "1.21.5"

/-- Embeds the `Dependency` dataclass of go-gin `setup_dependencies.py`. -/
structure Dependency where
  name : String
  module_path : String
  version : Option String := none
  import_path : Option String := none
  description : String := ""
  category : String := "general"

/-- Project configuration as read by `_get_dependencies_for_config`: one
field per `config.get(...)` access, with the default the source supplies for
a missing key. -/
structure Config where
  database_enabled : Bool := false
  database_type : String := "postgres"
  auth_enabled : Bool := false
  config_type : String := "yaml"
  logging_library : String := "logrus"
  validation_enabled : Bool := true
  cors_enabled : Bool := true
  docs_type : String := "swagger"
  testing_enhanced : Bool := false
  metrics_enabled : Bool := false
  rate_limiting_enabled : Bool := false
  cache_enabled : Bool := false
  cache_type : String := "redis"
  message_queue_enabled : Bool := false
  message_queue_type : String := "rabbitmq"
  grpc_enabled : Bool := false

/-- Database block of `_get_dependencies_for_config`. -/
def databaseDeps (c : Config) : List Dependency :=
  if c.database_enabled then
    if c.database_type = "postgres" then
      [{ name := "gorm", module_path := "gorm.io/gorm" },
       { name := "postgres", module_path := "gorm.io/driver/postgres" }]
    else if c.database_type = "mysql" then
      [{ name := "gorm", module_path := "gorm.io/gorm" },
       { name := "mysql", module_path := "gorm.io/driver/mysql" }]
    else if c.database_type = "sqlite" then
      [{ name := "gorm", module_path := "gorm.io/gorm" },
       { name := "sqlite", module_path := "gorm.io/driver/sqlite" }]
    else
      [{ name := "gorm", module_path := "gorm.io/gorm" }]
  else []

/-- Authentication block of `_get_dependencies_for_config`. -/
def authDeps (c : Config) : List Dependency :=
  if c.auth_enabled then
    [{ name := "jwt", module_path := "github.com/golang-jwt/jwt" }]
  else []

/-- Configuration-management block of `_get_dependencies_for_config`. -/
def configDeps (c : Config) : List Dependency :=
  if c.config_type = "yaml" || c.config_type = "yml" then
    [{ name := "viper", module_path := "github.com/spf13/viper" }]
  else []

/-- Logging block of `_get_dependencies_for_config`. -/
def loggingDeps (c : Config) : List Dependency :=
  if c.logging_library = "logrus" then
    [{ name := "logrus", module_path := "github.com/sirupsen/logrus" }]
  else if c.logging_library = "zap" then
    [{ name := "zap", module_path := "go.uber.org/zap" }]
  else []

/-- Validation block of `_get_dependencies_for_config`. -/
def validationDeps (c : Config) : List Dependency :=
  if c.validation_enabled then
    [{ name := "validator", module_path := "github.com/go-playground/validator" }]
  else []

/-- CORS block of `_get_dependencies_for_config`. -/
def corsDeps (c : Config) : List Dependency :=
  if c.cors_enabled then
    [{ name := "cors", module_path := "github.com/gin-contrib/cors" }]
  else []

/-- API-documentation block of `_get_dependencies_for_config`. -/
def docsDeps (c : Config) : List Dependency :=
  if c.docs_type = "swagger" then
    [{ name := "swaggo", module_path := "github.com/swaggo/swag" },
     { name := "swaggo-gin", module_path := "github.com/swaggo/gin-swagger" },
     { name := "swaggo-files", module_path := "github.com/swaggo/files" }]
  else []

/-- Testing block of `_get_dependencies_for_config`. -/
def testingDeps (c : Config) : List Dependency :=
  if c.testing_enhanced then
    [{ name := "testify", module_path := "github.com/stretchr/testify" }]
  else []

/-- Metrics block of `_get_dependencies_for_config`. -/
def metricsDeps (c : Config) : List Dependency :=
  if c.metrics_enabled then
    [{ name := "prometheus", module_path := "github.com/prometheus/client_golang" },
     { name := "gin-prometheus", module_path := "github.com/zsais/go-gin-prometheus" }]
  else []

/-- Rate-limiting block of `_get_dependencies_for_config`. -/
def rateLimitingDeps (c : Config) : List Dependency :=
  if c.rate_limiting_enabled then
    [{ name := "goredis", module_path := "github.com/go-redis/redis/v8" },
     { name := "rate-limit", module_path := "golang.org/x/time/rate" }]
  else []

/-- Cache block of `_get_dependencies_for_config`. -/
def cacheDeps (c : Config) : List Dependency :=
  if c.cache_enabled then
    if c.cache_type = "redis" then
      [{ name := "goredis", module_path := "github.com/go-redis/redis/v8" }]
    else []
  else []

/-- Message-queue block of `_get_dependencies_for_config`. -/
def messageQueueDeps (c : Config) : List Dependency :=
  if c.message_queue_enabled then
    if c.message_queue_type = "rabbitmq" then
      [{ name := "streadway-amqp", module_path := "github.com/streadway/amqp" }]
    else if c.message_queue_type = "nats" then
      [{ name := "nats", module_path := "github.com/nats-io/nats.go" }]
    else []
  else []

/-- gRPC block of `_get_dependencies_for_config`. -/
def grpcDeps (c : Config) : List Dependency :=
  if c.grpc_enabled then
    [{ name := "grpc", module_path := "google.golang.org/grpc" },
     { name := "grpc-gateway", module_path := "github.com/grpc-ecosystem/grpc-gateway/v2" },
     { name := "protoc-gen-go", module_path := "google.golang.org/protobuf/cmd/protoc-gen-go" },
     { name := "protoc-gen-go-grpc", module_path := "google.golang.org/grpc/cmd/protoc-gen-go-grpc" }]
  else []

/-- The accumulated `dependencies` list of `_get_dependencies_for_config`
before the version-attachment loop, blocks in source order. -/
def rawDepsForConfig (c : Config) : List Dependency :=
  databaseDeps c ++ authDeps c ++ configDeps c ++ loggingDeps c ++ validationDeps c ++
  corsDeps c ++ docsDeps c ++ testingDeps c ++ metricsDeps c ++ rateLimitingDeps c ++
  cacheDeps c ++ messageQueueDeps c ++ grpcDeps c

/-- Version-attachment loop of `_get_dependencies_for_config`: the source
tests `dep.module_path in common_deps`, i.e. looks the module path up among
the short-name keys of the common-dependency dict, and copies the version on
a hit. -/
def attachCommonVersion (common : List (String × CommonDepInfo)) (d : Dependency) : Dependency :=
  match common.find? (fun e => e.1 = d.module_path) with
  | some e => { d with version := some e.2.version }
  | none => d

/-- Embeds `GoDependencyManager._get_dependencies_for_config`. -/
def getDependenciesForConfig (net : Network) (c : Config) : List Dependency :=
  (rawDepsForConfig c).map (attachCommonVersion (get_common_dependency_versions net))

/-- Per-dependency require line of `generate_go_mod_content`: pinned form
when the version is truthy and not the `"latest"` sentinel, bare module path
otherwise. -/
def goModRequireLine (d : Dependency) : String :=
  match d.version with
  | some v => if v ≠ "" && v ≠ "latest" then "\t" ++ d.module_path ++ " v" ++ v
              else "\t" ++ d.module_path
  | none => "\t" ++ d.module_path

/-- Embeds `GoDependencyManager.generate_go_mod_content` up to the final
newline join: the list of lines the source accumulates. -/
def generate_go_mod_lines (net : Network) (dl : Option (List GoDlItem))
    (module_path : String) (c : Config) : List String :=
  let go_version := get_go_version_info dl
  let gin_info := get_gin_framework_info net
  let lines := ["module " ++ module_path, "", "go " ++ go_version, "", "require (",
                "\t" ++ gin_info.module_path ++ " v" ++ gin_info.version]
  let dependencies := getDependenciesForConfig net c
  let lines := dependencies.foldl (fun ls dep => ls ++ [goModRequireLine dep]) lines
  lines ++ [")", ""]

/-- Embeds `GoDependencyManager.generate_go_mod_content`: the accumulated
lines joined by newlines. -/
def generate_go_mod_content (net : Network) (dl : Option (List GoDlItem))
    (module_path : String) (c : Config) : String :=
  String.intercalate "\n" (generate_go_mod_lines net dl module_path c)

/-- A network on which every registry request fails. -/
def failNet : Network := { github := fun _ _ => none, goproxy := fun _ => none }

/-- Markers that disqualify the npm `dist-tags.latest` value in
`query_npm_latest_version` (vue3 `query_versions.py`). -/
def npmDistMarkers : List String := ["-alpha", "-beta", "-rc", "-pre", "-next"]

/-- Markers filtered from the npm versions list in the fallback scan of
`query_npm_latest_version`. -/
def npmListMarkers : List String := ["-alpha", "-beta", "-rc", "-pre", "-next", "-dev"]

/-- Parsed npm registry response as consumed by `query_npm_latest_version`:
the keys of the `versions` object in iteration order, and the
`dist-tags.latest` value when present. -/
structure NpmPackageData where
  versions : List String
  distTagLatest : Option String

/-- Fallback scan of `query_npm_latest_version` over the versions list:
keeps versions without a marker, parses each inside its own try/except
(parse failures are skipped, not fatal), and returns the rendered maximum. -/
def npmListScan (versions : List String) : Option String :=
  let stable := (versions.filter (fun v => !hasAnyMarker npmListMarkers v)).filterMap parseVersion
  match pyMax versionLt stable with
  | some m => some (renderVersion m)
  | none => none

/-- Embeds `query_npm_latest_version` (vue3 `query_versions.py`); the
argument is the parsed registry response (`none` when the request failed or
raised).  The truthy `dist-tags.latest` value is returned as-is when it
carries no `-alpha`/`-beta`/`-rc`/`-pre`/`-next` marker; otherwise the
versions list is scanned. -/
def query_npm_latest_version (resp : Option NpmPackageData) : Option String :=
  match resp with
  | none => none
  | some data =>
    match data.distTagLatest with
    | some latest =>
      if latest ≠ "" then
        if !hasAnyMarker npmDistMarkers latest then some latest
        else npmListScan data.versions
      else npmListScan data.versions
    | none => npmListScan data.versions

/-- Result of a completed `subprocess.run` call. -/
structure CompletedProcess where
  returncode : Int
  stdout : String
  stderr : String

/-- The `subprocess.run` call sites are embedded as invocation records so the
arguments actually passed (notably the timeout keyword) are inspectable. -/
structure SubprocessInvocation where
  argv : List String
  timeoutSeconds : Option Nat

/-- The `subprocess.run` call of `GoDependencyManager._run_go_command`: argv
is `go` plus the command, and no timeout keyword is passed. -/
def run_go_command_invocation (command : List String) : SubprocessInvocation :=
  { argv := "go" :: command, timeoutSeconds := none }

/-- The `subprocess.run` call of `run_command` (vue3
`check_environment.py`): the command with the timeout keyword set to the
`timeout` parameter (default 30). -/
def run_command_invocation (command : List String) (timeout : Nat := 30) : SubprocessInvocation :=
  { argv := command, timeoutSeconds := some timeout }

/-- Possible outcomes of the `go` child process in
`_run_go_command`: completion with a return code, or the binary missing. -/
inductive GoRunOutcome where
  | completes (r : CompletedProcess)
  | fileNotFound

/-- Embeds `GoDependencyManager._run_go_command`.  With `check = true`,
`subprocess.run` raises `CalledProcessError` on a non-zero return code; the
handler prints and re-raises, so the error propagates to the caller
(`Except.error`).  A missing binary becomes a `RuntimeError`. -/
def run_go_command (outcome : GoRunOutcome) (check : Bool := true) :
    Except String CompletedProcess :=
  match outcome with
  | .fileNotFound => .error "Go is not installed or not in PATH"
  | .completes r =>
    if check && r.returncode != 0 then
      .error ("CalledProcessError: exit status " ++ toString r.returncode)
    else .ok r

/-- Possible outcomes of the child process in `run_command` (vue3
`check_environment.py`). -/
inductive VueRunOutcome where
  | completes (r : CompletedProcess)
  | timesOut
  | otherError (msg : String)

/-- Embeds `run_command` (vue3 `check_environment.py`): every exception is
caught and converted into a `(success, stdout, stderr)` triple; `check=True`
turns a non-zero return code into the `CalledProcessError` branch. -/
def run_command (outcome : VueRunOutcome) (timeout : Nat := 30) :
    Bool × String × String :=
  match outcome with
  | .completes r =>
    if r.returncode = 0 then (true, r.stdout.trim, r.stderr.trim)
    else (false, pyOr (some r.stdout.trim) "",
          pyOr (some r.stderr.trim) ("Command failed with exit code " ++ toString r.returncode))
  | .timesOut => (false, "", "Command timed out after " ++ toString timeout ++ " seconds")
  | .otherError msg => (false, "", msg)

/-- Boolean success test for an `Except` result. -/
def exceptOk : Except String CompletedProcess → Bool
  | .ok _ => true
  | .error _ => false

/-- Version normalization of `GoDependencyManager.add_dependency`: a truthy
version gets a `v` prefixed unless already present; a falsy version means no
pin. -/
def goGetVersionArg (version : Option String) : Option String :=
  match version with
  | none => none
  | some v =>
    if v = "" then none
    else some (match v.data with
               | c :: _ => if c = 'v' then v else "v" ++ v
               | [] => "v" ++ v)

/-- The `go get` command list built by `GoDependencyManager.add_dependency`. -/
def add_dependency_cmd (module_path : String) (version : Option String) : List String :=
  match goGetVersionArg version with
  | some v => ["get", module_path ++ "@" ++ v]
  | none => ["get", module_path]

/-- Modelled from the spec: the host package manager's manifest update for an
add command (`go get` / `pnpm add`) — the package manager's own source is
not part of this repository.  Per spec §4.4 its idempotence is relied upon:
the manifest is keyed by package identifier, and adding a package replaces
the existing declaration when present, otherwise appends a new one. -/
def pmApplyAdd (manifest : List (String × String)) (p v : String) :
    List (String × String) :=
  if manifest.any (fun e => e.1 = p) then
    manifest.map (fun e => if e.1 = p then (p, v) else e)
  else manifest ++ [(p, v)]

/-- Observable manifest outcome of `GoDependencyManager.add_dependency`: the
command built from the module path and optional version (see
`add_dependency_cmd`) is handed to the package manager, which records the
pinned version or the latest version it resolves itself (`latestOf`,
constant within one run). -/
def go_add_dependency (latestOf : String → String)
    (manifest : List (String × String)) (module_path : String)
    (version : Option String) : List (String × String) :=
  pmApplyAdd manifest module_path
    (match goGetVersionArg version with
     | some v => v
     | none => latestOf module_path)

/-- Structural projection of a dependency: everything except the resolved
version. -/
def structuralView (d : Dependency) : String × String × String :=
  (d.name, d.module_path, d.category)

lemma attachCommonVersion_structural (common : List (String × CommonDepInfo))
    (d : Dependency) :
    structuralView (attachCommonVersion common d) = structuralView d := by
  unfold attachCommonVersion
  split <;> rfl

lemma attachCommonVersion_module_path (common : List (String × CommonDepInfo))
    (d : Dependency) :
    (attachCommonVersion common d).module_path = d.module_path := by
  unfold attachCommonVersion
  split <;> rfl

lemma getDependenciesForConfig_module_paths (net : Network) (c : Config) :
    (getDependenciesForConfig net c).map (fun d => d.module_path) =
      (rawDepsForConfig c).map (fun d => d.module_path) := by
  unfold getDependenciesForConfig
  rw [List.map_map]
  exact List.map_congr_left fun d _ =>
    attachCommonVersion_module_path (get_common_dependency_versions net) d

lemma databaseDeps_modules (c : Config) :
    (databaseDeps c).map (fun d => d.module_path) ⊆
      ["gorm.io/gorm", "gorm.io/driver/postgres", "gorm.io/driver/mysql",
       "gorm.io/driver/sqlite"] := by
  unfold databaseDeps
  repeat' split
  all_goals decide

lemma authDeps_modules (c : Config) :
    (authDeps c).map (fun d => d.module_path) ⊆ ["github.com/golang-jwt/jwt"] := by
  unfold authDeps
  split
  all_goals decide

lemma configDeps_modules (c : Config) :
    (configDeps c).map (fun d => d.module_path) ⊆ ["github.com/spf13/viper"] := by
  unfold configDeps
  split
  all_goals decide

lemma loggingDeps_modules (c : Config) :
    (loggingDeps c).map (fun d => d.module_path) ⊆
      ["github.com/sirupsen/logrus", "go.uber.org/zap"] := by
  unfold loggingDeps
  repeat' split
  all_goals decide

lemma validationDeps_modules (c : Config) :
    (validationDeps c).map (fun d => d.module_path) ⊆
      ["github.com/go-playground/validator"] := by
  unfold validationDeps
  split
  all_goals decide

lemma corsDeps_modules (c : Config) :
    (corsDeps c).map (fun d => d.module_path) ⊆ ["github.com/gin-contrib/cors"] := by
  unfold corsDeps
  split
  all_goals decide

lemma docsDeps_modules (c : Config) :
    (docsDeps c).map (fun d => d.module_path) ⊆
      ["github.com/swaggo/swag", "github.com/swaggo/gin-swagger",
       "github.com/swaggo/files"] := by
  unfold docsDeps
  split
  all_goals decide

lemma testingDeps_modules (c : Config) :
    (testingDeps c).map (fun d => d.module_path) ⊆ ["github.com/stretchr/testify"] := by
  unfold testingDeps
  split
  all_goals decide

lemma metricsDeps_modules (c : Config) :
    (metricsDeps c).map (fun d => d.module_path) ⊆
      ["github.com/prometheus/client_golang", "github.com/zsais/go-gin-prometheus"] := by
  unfold metricsDeps
  split
  all_goals decide

lemma rateLimitingDeps_modules (c : Config) :
    (rateLimitingDeps c).map (fun d => d.module_path) ⊆
      ["github.com/go-redis/redis/v8", "golang.org/x/time/rate"] := by
  unfold rateLimitingDeps
  split
  all_goals decide

lemma cacheDeps_modules (c : Config) :
    (cacheDeps c).map (fun d => d.module_path) ⊆ ["github.com/go-redis/redis/v8"] := by
  unfold cacheDeps
  repeat' split
  all_goals decide

lemma messageQueueDeps_modules (c : Config) :
    (messageQueueDeps c).map (fun d => d.module_path) ⊆
      ["github.com/streadway/amqp", "github.com/nats-io/nats.go"] := by
  unfold messageQueueDeps
  repeat' split
  all_goals decide

lemma versionLt_trans {a b c : List Nat} (h1 : versionLt a b = true)
    (h2 : versionLt b c = true) : versionLt a c = true := by
  simp only [versionLt, decide_eq_true_eq] at h1 h2 ⊢
  exact lt_trans h1 h2

lemma versionLt_of_lt_of_not_lt {a b c : List Nat} (h1 : versionLt a b = true)
    (h2 : versionLt c b = false) : versionLt a c = true := by
  simp only [versionLt, decide_eq_true_eq, decide_eq_false_iff_not] at h1 h2 ⊢
  exact lt_of_lt_of_le h1 (le_of_not_lt h2)

lemma versionLt_irrefl (a : List Nat) : versionLt a a = false := by
  simp [versionLt]

lemma pyMax_fold_mem (lt : α → α → Bool) :
    ∀ (xs : List α) (acc : α),
      xs.foldl (fun a v => if lt a v then v else a) acc ∈ acc :: xs := by
  intro xs
  induction xs with
  | nil => intro acc; simp
  | cons v vs ih =>
    intro acc
    simp only [List.foldl_cons]
    rcases List.mem_cons.1 (ih (if lt acc v then v else acc)) with h | h
    · rw [h]
      split
      · exact List.mem_cons_of_mem _ (List.mem_cons_self _ _)
      · exact List.mem_cons_self _ _
    · exact List.mem_cons_of_mem _ (List.mem_cons_of_mem _ h)

lemma pyMax_fold_not_lt :
    ∀ (xs : List (List Nat)) (acc : List Nat),
      versionLt (xs.foldl (fun a v => if versionLt a v then v else a) acc) acc = false ∧
      ∀ x ∈ xs,
        versionLt (xs.foldl (fun a v => if versionLt a v then v else a) acc) x = false := by
  intro xs
  induction xs with
  | nil =>
    intro acc
    exact ⟨versionLt_irrefl acc, by simp⟩
  | cons v vs ih =>
    intro acc
    simp only [List.foldl_cons]
    by_cases hv : versionLt acc v = true
    · rw [if_pos hv]
      rcases ih v with ⟨hacc2, hrest⟩
      refine ⟨?_, ?_⟩
      · by_contra hcon
        rw [Bool.not_eq_false] at hcon
        have htr := versionLt_trans hcon hv
        simp [hacc2] at htr
      · intro x hx
        rcases List.mem_cons.1 hx with rfl | hx2
        · exact hacc2
        · exact hrest x hx2
    · rw [Bool.not_eq_true] at hv
      rw [if_neg (by simp [hv])]
      rcases ih acc with ⟨hacc2, hrest⟩
      refine ⟨hacc2, ?_⟩
      intro x hx
      rcases List.mem_cons.1 hx with rfl | hx2
      · by_contra hcon
        rw [Bool.not_eq_false] at hcon
        have htr := versionLt_of_lt_of_not_lt hcon hv
        simp [hacc2] at htr
      · exact hrest x hx2

lemma pyMax_spec {l : List (List Nat)} {m : List Nat}
    (h : pyMax versionLt l = some m) :
    m ∈ l ∧ ∀ x ∈ l, versionLt m x = false := by
  cases l with
  | nil => simp [pyMax] at h
  | cons x xs =>
    simp only [pyMax, Option.some.injEq] at h
    subst h
    refine ⟨pyMax_fold_mem versionLt xs x, ?_⟩
    intro y hy
    rcases pyMax_fold_not_lt xs x with ⟨h1, h2⟩
    rcases List.mem_cons.1 hy with rfl | hy2
    · exact h1
    · exact h2 y hy2

lemma parseAllVersions_forall2 :
    ∀ {l : List String} {ks : List (List Nat)}, parseAllVersions l = some ks →
      List.Forall₂ (fun s k => parseVersion s = some k) l ks := by
  intro l
  induction l with
  | nil =>
    intro ks h
    simp only [parseAllVersions, Option.some.injEq] at h
    subst h
    exact List.Forall₂.nil
  | cons v vs ih =>
    intro ks h
    rw [parseAllVersions] at h
    cases hv : parseVersion v with
    | none => rw [hv] at h; exact absurd h (by simp)
    | some k =>
      rw [hv] at h
      cases hvs : parseAllVersions vs with
      | none => rw [hvs] at h; exact absurd h (by simp)
      | some ks2 =>
        rw [hvs] at h
        simp only [Option.some.injEq] at h
        subst h
        exact List.Forall₂.cons hv (ih hvs)

lemma forall2_mem_right {R : α → β → Prop} :
    ∀ {l : List α} {l2 : List β}, List.Forall₂ R l l2 → ∀ {b}, b ∈ l2 →
      ∃ a ∈ l, R a b := by
  intro l l2 h
  induction h with
  | nil => intro b hb; simp at hb
  | cons hr _ ih =>
    intro b hb
    rcases List.mem_cons.1 hb with rfl | hb2
    · exact ⟨_, List.mem_cons_self _ _, hr⟩
    · rcases ih hb2 with ⟨a, ha, hR⟩
      exact ⟨a, List.mem_cons_of_mem _ ha, hR⟩

lemma forall2_mem_left {R : α → β → Prop} :
    ∀ {l : List α} {l2 : List β}, List.Forall₂ R l l2 → ∀ {a}, a ∈ l →
      ∃ b ∈ l2, R a b := by
  intro l l2 h
  induction h with
  | nil => intro a ha; simp at ha
  | cons hr _ ih =>
    intro a ha
    rcases List.mem_cons.1 ha with rfl | ha2
    · exact ⟨_, List.mem_cons_self _ _, hr⟩
    · rcases ih ha2 with ⟨b, hb, hR⟩
      exact ⟨b, List.mem_cons_of_mem _ hb, hR⟩

lemma go_module_version_max_spec {vs : List String} {out : String}
    (h : query_go_module_version (some vs) = some out) :
    ∃ v ∈ vs, (v ≠ "" : Bool) = true ∧ hasAnyMarker goPreMarkers v = false ∧
      ∃ k, parseVersion v = some k ∧ out = renderVersion k ∧
        ∀ w ∈ vs, w ≠ "" → hasAnyMarker goPreMarkers w = false →
          ∀ kw, parseVersion w = some kw → versionLt k kw = false := by
  simp only [query_go_module_version] at h
  split at h
  · exact absurd h (by simp)
  · rename_i parsed hpa
    split at h
    · rename_i m hmax
      simp only [Option.some.injEq] at h
      subst h
      have hf2 := parseAllVersions_forall2 hpa
      rcases pyMax_spec hmax with ⟨hmem, hnotlt⟩
      rcases forall2_mem_right hf2 hmem with ⟨v, hv, hparse⟩
      rcases List.mem_filter.1 hv with ⟨hvs, hpred⟩
      rw [Bool.and_eq_true] at hpred
      rcases hpred with ⟨hne, hnm⟩
      refine ⟨v, hvs, hne, by simpa using hnm, m, hparse, rfl, ?_⟩
      intro w hw hwne hwnm kw hkw
      have hwkept : w ∈ vs.filter
          (fun v => (v ≠ "" : Bool) && !hasAnyMarker goPreMarkers v) := by
        refine List.mem_filter.2 ⟨hw, ?_⟩
        simp [hwne, hwnm]
      rcases forall2_mem_left hf2 hwkept with ⟨kw2, hkw2, hparse2⟩
      have : kw = kw2 := by
        rw [hkw] at hparse2
        exact Option.some.inj hparse2
      subst this
      exact hnotlt _ hkw2
    · exact absurd h (by simp)

lemma foldl_append_map (f : α → β) :
    ∀ (l : List α) (init : List β),
      l.foldl (fun ls d => ls ++ [f d]) init = init ++ l.map f := by
  intro l
  induction l with
  | nil => intro init; simp
  | cons x xs ih =>
    intro init
    simp only [List.foldl_cons, List.map_cons]
    rw [ih, List.append_assoc]
    rfl

lemma pmApplyAdd_any (m : List (String × String)) (p v : String) :
    (pmApplyAdd m p v).any (fun e => e.1 = p) = true := by
  unfold pmApplyAdd
  split
  · rename_i hany
    rw [List.any_eq_true] at hany ⊢
    rcases hany with ⟨e0, he0, hp0⟩
    have he : e0.1 = p := of_decide_eq_true hp0
    exact ⟨(p, v), List.mem_map.2 ⟨e0, he0, by simp [he]⟩, by simp⟩
  · rw [List.any_eq_true]
    exact ⟨(p, v), List.mem_append.2 (Or.inr (by simp)), by simp⟩

lemma pmApplyAdd_key_eq {m : List (String × String)} {p v : String} :
    ∀ e ∈ pmApplyAdd m p v, e.1 = p → e = (p, v) := by
  intro e he hep
  unfold pmApplyAdd at he
  split at he
  · rcases List.mem_map.1 he with ⟨e0, he0, heq⟩
    by_cases h0 : e0.1 = p
    · rw [if_pos h0] at heq
      exact heq.symm
    · rw [if_neg h0] at heq
      rw [heq] at h0
      exact absurd hep h0
  · rename_i hany
    rcases List.mem_append.1 he with h1 | h1
    · exfalso
      exact hany (List.any_eq_true.2 ⟨e, h1, by simp [hep]⟩)
    · simpa using h1

lemma pmApplyAdd_idem (m : List (String × String)) (p v : String) :
    pmApplyAdd (pmApplyAdd m p v) p v = pmApplyAdd m p v := by
  have hany := pmApplyAdd_any m p v
  rw [pmApplyAdd, if_pos hany]
  have hpt : ∀ e ∈ pmApplyAdd m p v, (if e.1 = p then (p, v) else e) = e := by
    intro e he
    by_cases hep : e.1 = p
    · rw [if_pos hep]
      exact (pmApplyAdd_key_eq e he hep).symm
    · rw [if_neg hep]
  rw [List.map_congr_left hpt]
  exact List.map_id' _

lemma pmApplyAdd_count (m : List (String × String)) (p v : String)
    (h : (m.map Prod.fst).count p ≤ 1) :
    ((pmApplyAdd m p v).map Prod.fst).count p = 1 := by
  unfold pmApplyAdd
  split
  · rename_i hany
    rw [List.map_map]
    have hcnt : ∀ (l : List (String × String)),
        (l.map (Prod.fst ∘ fun e => if e.1 = p then (p, v) else e)).count p =
          (l.map Prod.fst).count p := by
      intro l
      induction l with
      | nil => rfl
      | cons e es ihe =>
        simp only [List.map_cons, List.count_cons, ihe]
        by_cases hep : e.1 = p <;> simp [hep, Function.comp]
    rw [hcnt]
    have hpos : 0 < (m.map Prod.fst).count p := by
      rw [List.count_pos_iff]
      rw [List.any_eq_true] at hany
      rcases hany with ⟨e0, he0, hp0⟩
      have he : e0.1 = p := of_decide_eq_true hp0
      exact he ▸ List.mem_map_of_mem Prod.fst he0
    omega
  · rename_i hany
    rw [List.map_append, List.count_append]
    have hzero : (m.map Prod.fst).count p = 0 := by
      rw [List.count_eq_zero]
      intro hmem
      rcases List.mem_map.1 hmem with ⟨e0, he0, hfst⟩
      exact hany (List.any_eq_true.2 ⟨e0, he0, by simp [hfst]⟩)
    simp [hzero]

lemma grpcDeps_modules (c : Config) :
    (grpcDeps c).map (fun d => d.module_path) ⊆
      ["google.golang.org/grpc", "github.com/grpc-ecosystem/grpc-gateway/v2",
       "google.golang.org/protobuf/cmd/protoc-gen-go",
       "google.golang.org/grpc/cmd/protoc-gen-go-grpc"] := by
  unfold grpcDeps
  split
  all_goals decide

/-- C7: with an unreachable primary source and a secondary source returning
`["2.1.0", "2.2.0-beta", "2.0.9"]`, the registry client resolves to
`"2.1.0"`: the pre-release `"2.2.0-beta"` is filtered out and the maximum of
the remaining versions by release ordering is selected. -/
theorem C7_prerelease_filtered_max :
    query_go_module_version (some ["2.1.0", "2.2.0-beta", "2.0.9"]) = some "2.1.0" ∧
    (get_gin_framework_info scenarioNet).version = "2.1.0" := by
  decide

/-- C1 counterexample: the resolver does not de-duplicate by identifier.  A
configuration enabling both rate limiting and a redis cache yields the
go-redis module path twice in the resolved list and twice among the
synthesized manifest lines. -/
theorem C1_counterexample :
    ((getDependenciesForConfig failNet
        { rate_limiting_enabled := true, cache_enabled := true }).map
      (fun d => d.module_path)).count "github.com/go-redis/redis/v8" = 2 ∧
    (generate_go_mod_lines failNet none "github.com/example/app"
        { rate_limiting_enabled := true, cache_enabled := true }).count
      "\tgithub.com/go-redis/redis/v8" = 2 := by
  decide

/-- C1 (amended): the synthesized manifest consists of the fixed header, one
require line for the always-included gin entry, then exactly one require
line per element (occurrence) of the resolved list in list order, and the
closing lines; duplicated identifiers in the resolved list therefore yield
duplicated require lines. -/
theorem C1_one_line_per_resolved_entry (net : Network) (dl : Option (List GoDlItem))
    (module_path : String) (c : Config) :
    generate_go_mod_lines net dl module_path c =
      ["module " ++ module_path, "", "go " ++ get_go_version_info dl, "",
       "require (",
       "\t" ++ (get_gin_framework_info net).module_path ++ " v" ++
         (get_gin_framework_info net).version] ++
      (getDependenciesForConfig net c).map goModRequireLine ++ [")", ""] ∧
    (generate_go_mod_lines net dl module_path c).length =
      (getDependenciesForConfig net c).length + 8 := by
  have hmain : generate_go_mod_lines net dl module_path c =
      ["module " ++ module_path, "", "go " ++ get_go_version_info dl, "",
       "require (",
       "\t" ++ (get_gin_framework_info net).module_path ++ " v" ++
         (get_gin_framework_info net).version] ++
      (getDependenciesForConfig net c).map goModRequireLine ++ [")", ""] := by
    simp only [generate_go_mod_lines]
    rw [foldl_append_map]
  refine ⟨hmain, ?_⟩
  rw [hmain]
  simp only [List.length_append, List.length_map, List.length_cons, List.length_nil]
  omega

/-- C2: the version-attachment loop of the resolver looks module paths up
among the short-name keys of the common-dependency dict, so even when every
registry query succeeds (every entry of the common-dependency table resolves
to `9.9.9`) no resolved dependency receives a version — contradicting the
documented per-entry version attachment. -/
theorem C2_version_attachment_never_fires :
    (((getDependenciesForConfig
          { github := fun _ _ => some "v9.9.9", goproxy := fun _ => some ["9.9.9"] }
          { database_enabled := true, database_type := "postgres",
            auth_enabled := true, testing_enhanced := true }).map
        (fun d => d.version)).all (fun v => v == none)) = true ∧
    (((get_common_dependency_versions
          { github := fun _ _ => some "v9.9.9", goproxy := fun _ => some ["9.9.9"] }).map
        (fun e => e.2.version)).all (fun v => v == "9.9.9")) = true := by
  decide

/-- C3: when the GitHub source and the Go proxy source both fail, the gin
lookup returns the hardcoded `1.9.1` default and every common-dependency
entry receives the hardcoded `"latest"` sentinel — never an empty or absent
version. -/
theorem C3_hardcoded_default (net : Network)
    (hg : ∀ o r, net.github o r = none) (hp : ∀ m, net.goproxy m = none) :
    (get_gin_framework_info net).version = "1.9.1" ∧
    ((get_common_dependency_versions net).map (fun e => e.2.version)).all
      (fun v => v == "latest") = true := by
  constructor
  · simp [get_gin_framework_info, hg, hp, query_github_api_latest_release,
      query_go_module_version, pyTruthy, pyOr]
  · simp [get_common_dependency_versions, commonDependencyTable, resolveCommonDep,
      hg, hp, query_github_api_latest_release, query_go_module_version, pyOr]

/-- C3 witness: the hardcoded defaults at the everything-fails network. -/
theorem C3_hardcoded_default_witness :
    (get_gin_framework_info failNet).version = "1.9.1" ∧
    ((get_common_dependency_versions failNet).map (fun e => e.2.version)).all
      (fun v => v == "latest") = true :=
  C3_hardcoded_default failNet (fun _ _ => rfl) (fun _ => rfl)

/-- C9: resolving the same configuration against two different registry
states yields the same list of (name, identifier, category) triples in the
same order — resolution is structurally deterministic, only versions can
depend on the registry. -/
theorem C9_structurally_deterministic (c : Config) (net1 net2 : Network) :
    (getDependenciesForConfig net1 c).map structuralView =
      (getDependenciesForConfig net2 c).map structuralView := by
  unfold getDependenciesForConfig
  rw [List.map_map, List.map_map]
  have h1 : (rawDepsForConfig c).map
      (structuralView ∘ attachCommonVersion (get_common_dependency_versions net1)) =
      (rawDepsForConfig c).map structuralView :=
    List.map_congr_left fun d _ => attachCommonVersion_structural _ d
  have h2 : (rawDepsForConfig c).map
      (structuralView ∘ attachCommonVersion (get_common_dependency_versions net2)) =
      (rawDepsForConfig c).map structuralView :=
    List.map_congr_left fun d _ => attachCommonVersion_structural _ d
  rw [h1, h2]

/-- C10: adding the same dependency twice leaves the manifest exactly as
after one add, and a well-formed manifest (at most one declaration for the
identifier beforehand) contains exactly one declaration for it afterwards.
The host package manager is modelled from the spec as an insert-or-replace
keyed by identifier. -/
theorem C10_add_idempotent (latestOf : String → String)
    (m : List (String × String)) (mp : String) (ver : Option String) :
    go_add_dependency latestOf (go_add_dependency latestOf m mp ver) mp ver =
      go_add_dependency latestOf m mp ver ∧
    ((m.map Prod.fst).count mp ≤ 1 →
      ((go_add_dependency latestOf (go_add_dependency latestOf m mp ver) mp ver).map
        Prod.fst).count mp = 1) := by
  unfold go_add_dependency
  refine ⟨pmApplyAdd_idem _ _ _, fun h => ?_⟩
  rw [pmApplyAdd_idem]
  exact pmApplyAdd_count _ _ _ h

/-- C10 witness: double add of a pinned dependency into a one-entry
manifest. -/
theorem C10_add_idempotent_witness :
    (([("github.com/a/b", "v0.1.0")].map Prod.fst).count "github.com/c/d" ≤ 1) ∧
    go_add_dependency (fun _ => "v9.9.9")
        (go_add_dependency (fun _ => "v9.9.9") [("github.com/a/b", "v0.1.0")]
          "github.com/c/d" (some "1.2.3"))
        "github.com/c/d" (some "1.2.3") =
      go_add_dependency (fun _ => "v9.9.9") [("github.com/a/b", "v0.1.0")]
        "github.com/c/d" (some "1.2.3") ∧
    ((go_add_dependency (fun _ => "v9.9.9")
        (go_add_dependency (fun _ => "v9.9.9") [("github.com/a/b", "v0.1.0")]
          "github.com/c/d" (some "1.2.3"))
        "github.com/c/d" (some "1.2.3")).map Prod.fst).count "github.com/c/d" = 1 :=
  ⟨by decide,
   (C10_add_idempotent (fun _ => "v9.9.9") [("github.com/a/b", "v0.1.0")]
     "github.com/c/d" (some "1.2.3")).1,
   (C10_add_idempotent (fun _ => "v9.9.9") [("github.com/a/b", "v0.1.0")]
     "github.com/c/d" (some "1.2.3")).2 (by decide)⟩

/-- C4 counterexample: the go-gin primary lookup (GitHub latest-release API)
applies no pre-release filtering — a pre-release tag is returned as-is
(modulo v-strip) and flows into the resolved gin version. -/
theorem C4_counterexample :
    query_github_api_latest_release (some "v2.0.0-beta") = some "2.0.0-beta" ∧
    hasAnyMarker goPreMarkers "2.0.0-beta" = true ∧
    (get_gin_framework_info
        { github := fun _ _ => some "v2.0.0-beta", goproxy := fun _ => none }).version =
      "2.0.0-beta" := by
  decide

/-- C4 (amended): the list-based lookups are the ones that filter
pre-releases and take the maximum — the Go proxy lookup returns the rendered
maximum (by release ordering) of the parsed marker-free entries of the
version list; the GitHub latest-release lookup returns the reported tag
unfiltered with a leading v stripped; the npm dist-tags path returns the
latest tag unchanged whenever it carries no
`-alpha`/`-beta`/`-rc`/`-pre`/`-next` marker, without max-selection. -/
theorem C4_filtering_and_max_selection :
    (∀ vs out, query_go_module_version (some vs) = some out →
      ∃ v ∈ vs, (v ≠ "" : Bool) = true ∧ hasAnyMarker goPreMarkers v = false ∧
        ∃ k, parseVersion v = some k ∧ out = renderVersion k ∧
          ∀ w ∈ vs, w ≠ "" → hasAnyMarker goPreMarkers w = false →
            ∀ kw, parseVersion w = some kw → versionLt k kw = false) ∧
    (∀ tag, query_github_api_latest_release (some tag) = some (stripLeadingV tag)) ∧
    (∀ data latest, data.distTagLatest = some latest → latest ≠ "" →
      hasAnyMarker npmDistMarkers latest = false →
      query_npm_latest_version (some data) = some latest) := by
  refine ⟨fun vs out h => go_module_version_max_spec h, fun tag => rfl, ?_⟩
  intro data latest h1 h2 h3
  simp [query_npm_latest_version, h1, h2, h3]

/-- C4 witness: concrete instantiations of the three amended statements. -/
theorem C4_filtering_and_max_selection_witness :
    (∃ v ∈ ["1.0.0", "1.2.0", "1.1.0-beta"], (v ≠ "" : Bool) = true ∧
      hasAnyMarker goPreMarkers v = false ∧
      ∃ k, parseVersion v = some k ∧ "1.2.0" = renderVersion k ∧
        ∀ w ∈ ["1.0.0", "1.2.0", "1.1.0-beta"], w ≠ "" →
          hasAnyMarker goPreMarkers w = false →
          ∀ kw, parseVersion w = some kw → versionLt k kw = false) ∧
    query_github_api_latest_release (some "v1.2.3") = some (stripLeadingV "v1.2.3") ∧
    query_npm_latest_version (some ⟨["3.0.0"], some "3.1.4"⟩) = some "3.1.4" :=
  ⟨C4_filtering_and_max_selection.1 ["1.0.0", "1.2.0", "1.1.0-beta"] "1.2.0" (by decide),
   C4_filtering_and_max_selection.2.1 "v1.2.3",
   C4_filtering_and_max_selection.2.2 ⟨["3.0.0"], some "3.1.4"⟩ "3.1.4" rfl
     (by decide) (by decide)⟩

/-- C5 counterexample: the Go mutator hands its commands to subprocess.run
without any timeout keyword, and with check enabled a non-zero exit
propagates as an exception rather than being reported as failure. -/
theorem C5_counterexample :
    (run_go_command_invocation ["mod", "tidy"]).timeoutSeconds = none ∧
    exceptOk (run_go_command (.completes ⟨1, "", "exit status 1"⟩) true) = false := by
  decide

/-- C5 (amended): the Vue mutator invokes subprocesses with an explicit
timeout and converts non-zero exits, timeouts and other exceptions into
failure returns; the Go mutator passes no timeout, propagates non-zero exit
as an exception when check is set, and only returns the completed process
when check is cleared. -/
theorem C5_timeout_and_failure_reporting :
    (∀ cmd t, (run_command_invocation cmd t).timeoutSeconds = some t) ∧
    (∀ r t, r.returncode ≠ 0 → (run_command (.completes r) t).1 = false) ∧
    (∀ t, (run_command .timesOut t).1 = false) ∧
    (∀ msg t, (run_command (.otherError msg) t).1 = false) ∧
    (∀ cmd, (run_go_command_invocation cmd).timeoutSeconds = none) ∧
    (∀ r, r.returncode ≠ 0 → exceptOk (run_go_command (.completes r) true) = false) ∧
    (∀ r, run_go_command (.completes r) false = .ok r) := by
  refine ⟨fun cmd t => rfl, ?_, fun t => rfl, fun msg t => rfl, fun cmd => rfl, ?_, ?_⟩
  · intro r t h
    simp [run_command, h]
  · intro r h
    simp [run_go_command, exceptOk, h]
  · intro r
    simp [run_go_command]

/-- C5 witness: concrete instantiations of the amended statements. -/
theorem C5_timeout_and_failure_reporting_witness :
    (run_command_invocation ["pnpm", "install"] 30).timeoutSeconds = some 30 ∧
    (run_command (.completes ⟨2, "boom", "err"⟩) 30).1 = false ∧
    (run_command .timesOut 120).1 = false ∧
    (run_go_command_invocation ["mod", "verify"]).timeoutSeconds = none ∧
    exceptOk (run_go_command (.completes ⟨2, "", ""⟩) true) = false ∧
    run_go_command (.completes ⟨2, "", ""⟩) false = .ok ⟨2, "", ""⟩ :=
  ⟨C5_timeout_and_failure_reporting.1 ["pnpm", "install"] 30,
   C5_timeout_and_failure_reporting.2.1 ⟨2, "boom", "err"⟩ 30 (by decide),
   C5_timeout_and_failure_reporting.2.2.1 120,
   C5_timeout_and_failure_reporting.2.2.2.2.1 ["mod", "verify"],
   C5_timeout_and_failure_reporting.2.2.2.2.2.1 ⟨2, "", ""⟩ (by decide),
   C5_timeout_and_failure_reporting.2.2.2.2.2.2 ⟨2, "", ""⟩⟩

/-- C6 counterexample: a configuration with the database toggle enabled and
an unrecognized database type still contributes the ORM dependency (it is
not treated as feature disabled), and the enabled database toggle maps to
two catalog entries rather than at most one. -/
theorem C6_counterexample :
    "gorm.io/gorm" ∈ (getDependenciesForConfig failNet
        { database_enabled := true, database_type := "mongodb" }).map
      (fun d => d.module_path) ∧
    "gorm.io/gorm" ∉ (getDependenciesForConfig failNet
        { database_enabled := false, database_type := "mongodb" }).map
      (fun d => d.module_path) ∧
    (databaseDeps { database_enabled := true }).length = 2 := by
  decide

/-- C6 (amended): an unrecognized database type contributes exactly the ORM
entry and no driver entry; unrecognized cache and message-queue types
contribute nothing. -/
theorem C6_unknown_toggle_values (net : Network) (c : Config)
    (h1 : c.database_type ≠ "postgres") (h2 : c.database_type ≠ "mysql")
    (h3 : c.database_type ≠ "sqlite") :
    ("gorm.io/driver/postgres" ∉
        (getDependenciesForConfig net c).map (fun d => d.module_path) ∧
     "gorm.io/driver/mysql" ∉
        (getDependenciesForConfig net c).map (fun d => d.module_path) ∧
     "gorm.io/driver/sqlite" ∉
        (getDependenciesForConfig net c).map (fun d => d.module_path)) ∧
    (c.database_enabled = true →
      "gorm.io/gorm" ∈ (getDependenciesForConfig net c).map (fun d => d.module_path)) ∧
    (c.cache_type ≠ "redis" → cacheDeps c = []) ∧
    (c.message_queue_type ≠ "rabbitmq" → c.message_queue_type ≠ "nats" →
      messageQueueDeps c = []) := by
  have hdb : databaseDeps c =
      if c.database_enabled then [{ name := "gorm", module_path := "gorm.io/gorm" }]
      else [] := by
    simp [databaseDeps, h1, h2, h3]
  have hnodrv : ∀ s : String,
      s ∈ ["gorm.io/driver/postgres", "gorm.io/driver/mysql", "gorm.io/driver/sqlite"] →
      s ∉ (getDependenciesForConfig net c).map (fun d => d.module_path) := by
    intro s hs
    rw [getDependenciesForConfig_module_paths]
    unfold rawDepsForConfig
    simp only [List.map_append, List.mem_append]
    intro hmem
    rcases hmem with (((((((((((hb|hb)|hb)|hb)|hb)|hb)|hb)|hb)|hb)|hb)|hb)|hb)|hb
    · rw [hdb] at hb
      revert hb
      split <;> (intro hb; fin_cases hs <;> simp_all)
    · exact absurd (authDeps_modules c hb) (by fin_cases hs <;> decide)
    · exact absurd (configDeps_modules c hb) (by fin_cases hs <;> decide)
    · exact absurd (loggingDeps_modules c hb) (by fin_cases hs <;> decide)
    · exact absurd (validationDeps_modules c hb) (by fin_cases hs <;> decide)
    · exact absurd (corsDeps_modules c hb) (by fin_cases hs <;> decide)
    · exact absurd (docsDeps_modules c hb) (by fin_cases hs <;> decide)
    · exact absurd (testingDeps_modules c hb) (by fin_cases hs <;> decide)
    · exact absurd (metricsDeps_modules c hb) (by fin_cases hs <;> decide)
    · exact absurd (rateLimitingDeps_modules c hb) (by fin_cases hs <;> decide)
    · exact absurd (cacheDeps_modules c hb) (by fin_cases hs <;> decide)
    · exact absurd (messageQueueDeps_modules c hb) (by fin_cases hs <;> decide)
    · exact absurd (grpcDeps_modules c hb) (by fin_cases hs <;> decide)
  refine ⟨⟨hnodrv _ (by decide), hnodrv _ (by decide), hnodrv _ (by decide)⟩, ?_, ?_, ?_⟩
  · intro hen
    rw [getDependenciesForConfig_module_paths]
    unfold rawDepsForConfig
    simp only [List.map_append, List.mem_append]
    left
    rw [hdb, hen]
    simp
  · intro hc
    simp [cacheDeps, hc]
  · intro hm1 hm2
    simp [messageQueueDeps, hm1, hm2]

/-- C6 witness: unknown database, cache and message-queue type values at a
concrete configuration. -/
theorem C6_unknown_toggle_values_witness :
    ("gorm.io/driver/postgres" ∉
      (getDependenciesForConfig failNet
          { database_enabled := true, database_type := "mongodb",
            cache_enabled := true, cache_type := "memcached",
            message_queue_enabled := true, message_queue_type := "kafka" }).map
        (fun d => d.module_path)) ∧
    "gorm.io/gorm" ∈
      (getDependenciesForConfig failNet
          { database_enabled := true, database_type := "mongodb",
            cache_enabled := true, cache_type := "memcached",
            message_queue_enabled := true, message_queue_type := "kafka" }).map
        (fun d => d.module_path) ∧
    cacheDeps
        { database_enabled := true, database_type := "mongodb",
          cache_enabled := true, cache_type := "memcached",
          message_queue_enabled := true, message_queue_type := "kafka" } = [] ∧
    messageQueueDeps
        { database_enabled := true, database_type := "mongodb",
          cache_enabled := true, cache_type := "memcached",
          message_queue_enabled := true, message_queue_type := "kafka" } = [] :=
  ⟨(C6_unknown_toggle_values failNet _ (by decide) (by decide) (by decide)).1.1,
   (C6_unknown_toggle_values failNet _ (by decide) (by decide) (by decide)).2.1 rfl,
   (C6_unknown_toggle_values failNet _ (by decide) (by decide) (by decide)).2.2.1
     (by decide),
   (C6_unknown_toggle_values failNet _ (by decide) (by decide) (by decide)).2.2.2
     (by decide) (by decide)⟩

/-- C8: with the auth toggle disabled the resolved list never contains the
JWT token-library identifier, whatever the registry state and the other
toggles. -/
theorem C8_auth_disabled_no_jwt (net : Network) (c : Config)
    (h : c.auth_enabled = false) :
    "github.com/golang-jwt/jwt" ∉
      (getDependenciesForConfig net c).map (fun d => d.module_path) := by
  rw [getDependenciesForConfig_module_paths]
  unfold rawDepsForConfig
  simp only [List.map_append, List.mem_append]
  intro hmem
  rcases hmem with (((((((((((hb|hb)|hb)|hb)|hb)|hb)|hb)|hb)|hb)|hb)|hb)|hb)|hb
  · exact absurd (databaseDeps_modules c hb) (by decide)
  · simp [authDeps, h] at hb
  · exact absurd (configDeps_modules c hb) (by decide)
  · exact absurd (loggingDeps_modules c hb) (by decide)
  · exact absurd (validationDeps_modules c hb) (by decide)
  · exact absurd (corsDeps_modules c hb) (by decide)
  · exact absurd (docsDeps_modules c hb) (by decide)
  · exact absurd (testingDeps_modules c hb) (by decide)
  · exact absurd (metricsDeps_modules c hb) (by decide)
  · exact absurd (rateLimitingDeps_modules c hb) (by decide)
  · exact absurd (cacheDeps_modules c hb) (by decide)
  · exact absurd (messageQueueDeps_modules c hb) (by decide)
  · exact absurd (grpcDeps_modules c hb) (by decide)

/-- C8 witness: auth disabled while testing is enabled — testify resolved,
JWT absent. -/
theorem C8_auth_disabled_no_jwt_witness :
    "github.com/stretchr/testify" ∈
      (getDependenciesForConfig failNet { testing_enhanced := true }).map
        (fun d => d.module_path) ∧
    "github.com/golang-jwt/jwt" ∉
      (getDependenciesForConfig failNet { testing_enhanced := true }).map
        (fun d => d.module_path) :=
  ⟨by decide, C8_auth_disabled_no_jwt failNet { testing_enhanced := true } rfl⟩

end DepEngine
